import Mathlib

/-!
Verification of the ftrace config muxer (src/traced/probes/ftrace/ftrace_config_muxer.h).

The repository ships only the header: the class declaration, the field
declarations with their initializers, and the doc comments describing each
method's contract. The method bodies live in a .cc file that is not part of
the repository, so every operation below is modelled from the spec
(sections 3, 4.2-4.7 of spec.md) on top of the data model that the header
does declare (FtraceState, FtraceDataSourceConfig, ds_configs_,
active_configs_, last_id_ = 1, cpu_buffer_size_pages = 0, atrace_on = false).

Event filters are modelled as finite sets of event ids (the header's
EventFilter is a bitset over a dense id space supporting
enable/disable/query/union). The shared ftrace procfs resource is modelled
as an explicit record of the values last written to it.
-/

namespace FtraceMuxer

/-- Pair (group, name) naming an ftrace event, as in the header's GroupAndName. -/
abbrev GroupAndName := String × String

/-- EventFilter: bitset-like container over a dense numeric event-id space
(spec section 4.1); modelled as a finite set of ids. -/
abbrev EventFilter := Finset Nat

/-- Sentinel id meaning "all syscalls" stored in FtraceState.syscall_filter
(header line 158: syscall ids or kAllSyscallsId). Modelled as SIZE_MAX. -/
def kAllSyscallsId : Nat := 18446744073709551615

/-- Name of the raw syscall enter/exit event group (spec invariant 4). -/
def kRawSyscallsGroup : String := "raw_syscalls"

/-- Modelled from the spec: Buffer-Size Policy default of 2 MB per CPU,
expressed in KB, used when the request is zero or absent (spec 4.6). -/
def kDefaultPerCpuBufferSizeKb : Nat := 2048

/-- Modelled from the spec: documented maximum per-CPU buffer size in KB. -/
def kMaxPerCpuBufferSizeKb : Nat := 65536

/-- Page granularity of the host in KB (4 KB pages). -/
def kPageSizeKb : Nat := 4

/-- Modelled from the spec: ComputeCpuBufferSizeInPages (header line 223,
body missing). Pure function converting a requested KB size per CPU into a
page count, rounding to page granularity, clamping to a documented minimum
(one page) and maximum, and falling back to the documented default when the
request is zero (spec 4.6). -/
def ComputeCpuBufferSizeInPages (requested_buffer_size_kb : Nat) : Nat :=
  let kb := if requested_buffer_size_kb = 0 then kDefaultPerCpuBufferSizeKb
            else requested_buffer_size_kb
  let kb := min kb kMaxPerCpuBufferSizeKb
  max (kb / kPageSizeKb) 1

/-- Requested ftrace configuration (spec 4.2 inputs): named events and group
wildcards, userspace-annotation (atrace) categories and app filters, an
optional explicit syscall id list, a buffer-size hint in KB, a clock, and
flags for compact scheduling and symbol resolution. -/
structure FtraceConfig where
  ftrace_events : List GroupAndName
  atrace_apps : List String
  atrace_categories : List String
  syscall_events : List Nat
  buffer_size_kb : Nat
  clock : Nat
  compact_sched : Bool
  symbolize_ksyms : Bool
deriving DecidableEq

/-- Per-data-source derived state (header struct FtraceDataSourceConfig,
lines 42-73): resolved event filter, resolved syscall filter (an empty
filter implies all syscalls are enabled, header lines 60-62), compact-sched
configuration, atrace app/category lists and the kallsyms flag. -/
structure FtraceDataSourceConfig where
  event_filter : EventFilter
  syscall_filter : EventFilter
  compact_sched : Bool
  atrace_apps : List String
  atrace_categories : List String
  symbolize_ksyms : Bool
deriving DecidableEq

/-- Muxer snapshot of what is currently applied to ftrace (header struct
FtraceState, lines 156-166), with the header's field initializers. -/
structure FtraceState where
  ftrace_events : EventFilter
  syscall_filter : Finset Nat
  funcgraph_on : Bool
  cpu_buffer_size_pages : Nat
  ftrace_clock : Nat
  atrace_on : Bool
  atrace_apps : List String
  atrace_categories : List String
deriving DecidableEq

/-- Model of the shared ftrace procfs resource: the values last written
through the shared-resource boundary of spec section 6. -/
structure FtraceProcfs where
  tracing_on : Bool
  enabled_events : Finset Nat
  syscall_filter_file : Finset Nat
  buffer_size_pages : Nat
  clock : Nat
deriving DecidableEq

/-- Environment for one SetupConfig call, modelling the failure modes of
spec 4.2: whether the translation table can be consulted, whether kernel
symbol resolution is possible, and whether shared-resource writes succeed. -/
structure SetupEnv where
  table_ok : Bool
  ksyms_ok : Bool
  write_ok : Bool
deriving DecidableEq

/-- Translation table (external collaborator): finite map from (group, name)
to numeric event id, modelled as an association list. -/
abbrev Table := List (GroupAndName × Nat)

/-- The whole muxer (header class FtraceConfigMuxer, lines 87-221):
last_id_, the borrowed translation table, the FtraceState snapshot, the
registry ds_configs_, the active subset active_configs_, the shared procfs
resource, plus the id of the session that started atrace (if any), needed
for spec 4.4's "stops the annotation subsystem if this session started it". -/
structure FtraceConfigMuxer where
  last_id : Nat
  table : Table
  current_state : FtraceState
  ds_configs : List (Nat × FtraceDataSourceConfig)
  active_configs : Finset Nat
  procfs : FtraceProcfs
  atrace_owner : Option Nat
deriving DecidableEq

/-- Registry lookup by session id (std::map::find on ds_configs_). -/
def lookupCfg (id : Nat) : List (Nat × FtraceDataSourceConfig) → Option FtraceDataSourceConfig
  | [] => none
  | e :: es => if e.1 = id then some e.2 else lookupCfg id es

/-- Registry erase by session id (std::map::erase on ds_configs_). -/
def eraseCfg (id : Nat) : List (Nat × FtraceDataSourceConfig) → List (Nat × FtraceDataSourceConfig)
  | [] => []
  | e :: es => if e.1 = id then eraseCfg id es else e :: eraseCfg id es

/-- Modelled from the spec: GetFtraceEvents / step 1 of SetupConfig (body
missing). Resolves explicit "group/event" pairs through the translation
table and expands "group/*" wildcards to every event known for the group;
unresolvable names are silently dropped (best effort). -/
def resolveEvents (table : Table) : List GroupAndName → Finset Nat
  | [] => ∅
  | gn :: rest =>
    (if gn.2 = "*" then
      (table.filterMap (fun e => if e.1.1 = gn.1 then some e.2 else none)).toFinset
     else
      match table.find? (fun e => e.1 = gn) with
      | some e => {e.2}
      | none => ∅) ∪ resolveEvents table rest

/-- Modelled from the spec: FilterHasGroup (header lines 183-184, body
missing). True iff the filter has at least one event from the group. -/
def FilterHasGroup (table : Table) (filter : EventFilter) (group : String) : Bool :=
  table.any (fun e => e.1.1 = group && decide (e.2 ∈ filter))

/-- Modelled from the spec: BuildSyscallFilter (header lines 186-192, body
missing). If the config has no raw_syscall event the filter is empty; if it
has one, the filter is the request's explicit syscall id list, which may be
empty meaning "match all" (the three states documented in the header). -/
def BuildSyscallFilter (table : Table) (ftrace_filter : EventFilter)
    (request : FtraceConfig) : EventFilter :=
  if FilterHasGroup table ftrace_filter kRawSyscallsGroup then
    request.syscall_events.toFinset
  else ∅

/-- Modelled from the spec: the union syscall filter over a set of data
source configs, as maintained by SetSyscallEventFilter (header lines
194-199, body missing): for every config whose event filter contains a
raw_syscall event, contribute its explicit ids, or kAllSyscallsId when its
per-config filter is empty (empty means all, header lines 60-62). -/
def computeSyscallUnion (table : Table) : List FtraceDataSourceConfig → Finset Nat
  | [] => ∅
  | c :: cs =>
    (if FilterHasGroup table c.event_filter kRawSyscallsGroup then
      (if c.syscall_filter = ∅ then {kAllSyscallsId} else c.syscall_filter)
     else ∅) ∪ computeSyscallUnion table cs

/-- Whether a syscall id is matched by the union syscall filter: either the
"all syscalls" sentinel is present or the id itself is. -/
def syscallFilterMatches (s : Finset Nat) (id : Nat) : Bool :=
  decide (kAllSyscallsId ∈ s) || decide (id ∈ s)

/-- Bitwise union of the resolved event filters of every registered session. -/
def unionEventFilters : List (Nat × FtraceDataSourceConfig) → Finset Nat
  | [] => ∅
  | e :: es => e.2.event_filter ∪ unionEventFilters es

/-- Event filter of the session registered under a given id (empty when the
id is absent). -/
def eventFilterOf (l : List (Nat × FtraceDataSourceConfig)) (id : Nat) : Finset Nat :=
  match lookupCfg id l with
  | some c => c.event_filter
  | none => ∅

/-- True iff the request names any atrace app or category (the muxer only
touches atrace for such requests). -/
def RequiresAtrace (request : FtraceConfig) : Bool :=
  !request.atrace_apps.isEmpty || !request.atrace_categories.isEmpty

/-- Modelled from the spec: the failure gate of SetupConfig (spec 4.2
failure clause): setup fails iff the translation table cannot be consulted,
symbol resolution is requested but impossible, or the shared resource
rejects writes. -/
def setupChecksPass (env : SetupEnv) (request : FtraceConfig) : Bool :=
  env.table_ok && (env.ksyms_ok || !request.symbolize_ksyms) && env.write_ok

/-- Modelled from the spec: FtraceConfigMuxer::SetupConfig (header lines
98-107, body missing), following the nine steps of spec 4.2: resolve the
requested names, build this session's event and syscall filters, derive the
compact-sched config, merge the union filters, decide buffer size and clock
only when the registry is empty, touch atrace only when no session is
active, write the unions out, assign a fresh id and register the session.
On failure it returns id zero and leaves everything unchanged. -/
def SetupConfig (m : FtraceConfigMuxer) (env : SetupEnv) (request : FtraceConfig) :
    Nat × FtraceConfigMuxer :=
  if setupChecksPass env request then
    let filter := resolveEvents m.table request.ftrace_events
    let dsc : FtraceDataSourceConfig :=
      { event_filter := filter
        syscall_filter := BuildSyscallFilter m.table filter request
        compact_sched := request.compact_sched && FilterHasGroup m.table filter "sched"
        atrace_apps := request.atrace_apps
        atrace_categories := request.atrace_categories
        symbolize_ksyms := request.symbolize_ksyms }
    let id := m.last_id + 1
    let newConfigs := (id, dsc) :: m.ds_configs
    let touchAtrace := m.active_configs = (∅ : Finset Nat) ∧ RequiresAtrace request
    let st0 := m.current_state
    let st1 :=
      if m.ds_configs = [] then
        { st0 with cpu_buffer_size_pages := ComputeCpuBufferSizeInPages request.buffer_size_kb
                   ftrace_clock := request.clock }
      else st0
    let st2 :=
      if touchAtrace then
        { st1 with atrace_on := true
                   atrace_apps := request.atrace_apps
                   atrace_categories := request.atrace_categories }
      else st1
    let st3 :=
      { st2 with ftrace_events := st2.ftrace_events ∪ filter
                 syscall_filter := computeSyscallUnion m.table (newConfigs.map Prod.snd) }
    let pf :=
      { m.procfs with enabled_events := st3.ftrace_events
                      syscall_filter_file := st3.syscall_filter
                      buffer_size_pages := st3.cpu_buffer_size_pages
                      clock := st3.ftrace_clock }
    (id, { m with last_id := id
                  current_state := st3
                  ds_configs := newConfigs
                  procfs := pf
                  atrace_owner := if touchAtrace then some id else m.atrace_owner })
  else (0, m)

/-- Modelled from the spec: FtraceConfigMuxer::ActivateConfig (header lines
109-110, body missing; spec 4.3). Marks id active, asserting the shared
tracing_on switch if this was the first active session; idempotent for an
already-active id; false for a zero or unknown id. -/
def ActivateConfig (m : FtraceConfigMuxer) (id : Nat) : Bool × FtraceConfigMuxer :=
  if id = 0 then (false, m)
  else if (lookupCfg id m.ds_configs).isNone then (false, m)
  else if id ∈ m.active_configs then (true, m)
  else
    let pf := if m.active_configs = (∅ : Finset Nat) then
                { m.procfs with tracing_on := true }
              else m.procfs
    (true, { m with active_configs := insert id m.active_configs, procfs := pf })

/-- Modelled from the spec: FtraceConfigMuxer::RemoveConfig (header lines
112-114, body missing; spec 4.4). Removes id from the active set and the
registry, recomputes the union filters from the remaining entries and
re-applies them; if the active set becomes empty it deasserts tracing_on
and stops atrace if this session had started it. False iff the id is zero
or not registered, in which case nothing changes. -/
def RemoveConfig (m : FtraceConfigMuxer) (id : Nat) : Bool × FtraceConfigMuxer :=
  if id = 0 then (false, m)
  else if (lookupCfg id m.ds_configs).isNone then (false, m)
  else
    let remaining := eraseCfg id m.ds_configs
    let newActive := m.active_configs.erase id
    let becameInactive := id ∈ m.active_configs ∧ newActive = (∅ : Finset Nat)
    let stopAtrace := becameInactive ∧ m.atrace_owner = some id
    let st1 :=
      { m.current_state with
          ftrace_events := unionEventFilters remaining
          syscall_filter := computeSyscallUnion m.table (remaining.map Prod.snd) }
    let st2 :=
      if stopAtrace then
        { st1 with atrace_on := false, atrace_apps := [], atrace_categories := [] }
      else st1
    let pf1 := if becameInactive then { m.procfs with tracing_on := false } else m.procfs
    let pf2 :=
      { pf1 with enabled_events := st2.ftrace_events
                 syscall_filter_file := st2.syscall_filter }
    (true, { m with ds_configs := remaining
                    active_configs := newActive
                    current_state := st2
                    procfs := pf2
                    atrace_owner := if stopAtrace then none else m.atrace_owner })

/-- FtraceConfigMuxer::GetPerCpuBufferSizePages (header lines 122-127):
returns the per-cpu buffer size as configured by this muxer, reading only
the in-memory snapshot, never consulting debugfs. -/
def GetPerCpuBufferSizePages (m : FtraceConfigMuxer) : Nat :=
  m.current_state.cpu_buffer_size_pages

/-- GetDataSourceConfig (header line 116): read-only registry lookup. -/
def GetDataSourceConfig (m : FtraceConfigMuxer) (id : Nat) : Option FtraceDataSourceConfig :=
  lookupCfg id m.ds_configs

/-- A freshly constructed muxer over a given translation table, with the
header's field initializers: last_id_ = 1, cpu_buffer_size_pages = 0,
atrace_on = false, funcgraph_on = false, empty registry and active set. -/
def initialMuxer (table : Table) : FtraceConfigMuxer :=
  { last_id := 1
    table := table
    current_state :=
      { ftrace_events := ∅
        syscall_filter := ∅
        funcgraph_on := false
        cpu_buffer_size_pages := 0
        ftrace_clock := 0
        atrace_on := false
        atrace_apps := []
        atrace_categories := [] }
    ds_configs := []
    active_configs := ∅
    procfs :=
      { tracing_on := false
        enabled_events := ∅
        syscall_filter_file := ∅
        buffer_size_pages := 0
        clock := 0 }
    atrace_owner := none }

/-- One call into the muxer's public mutating interface. -/
inductive MuxerCall where
  | setup (env : SetupEnv) (request : FtraceConfig)
  | activate (id : Nat)
  | remove (id : Nat)
deriving DecidableEq

/-- Execute one call, discarding the return value. -/
def runCall (m : FtraceConfigMuxer) : MuxerCall → FtraceConfigMuxer
  | .setup env request => (SetupConfig m env request).2
  | .activate id => (ActivateConfig m id).2
  | .remove id => (RemoveConfig m id).2

/-- Execute a sequence of calls from a starting muxer. -/
def runCalls (m : FtraceConfigMuxer) : List MuxerCall → FtraceConfigMuxer
  | [] => m
  | c :: cs => runCalls (runCall m c) cs

/-- The session ids returned by the successful SetupConfig calls of a call
sequence, in order. -/
def setupIds (m : FtraceConfigMuxer) : List MuxerCall → List Nat
  | [] => []
  | .setup env request :: cs =>
    if setupChecksPass env request then
      (SetupConfig m env request).1 :: setupIds (SetupConfig m env request).2 cs
    else setupIds (SetupConfig m env request).2 cs
  | c :: cs => setupIds (runCall m c) cs


/-! Concrete fixtures shared by the witnesses below. -/

/-- A small concrete translation table used by witnesses. -/
def table0 : Table :=
  [(("sched", "sched_switch"), 1), (("sched", "sched_wakeup"), 2),
   ((kRawSyscallsGroup, "sys_enter"), 3), ((kRawSyscallsGroup, "sys_exit"), 4)]

/-- Environment in which every SetupConfig check passes. -/
def envOk : SetupEnv := { table_ok := true, ksyms_ok := true, write_ok := true }

/-- A request for one sched event, no atrace, no syscalls. -/
def reqSched : FtraceConfig :=
  { ftrace_events := [("sched", "sched_switch")]
    atrace_apps := []
    atrace_categories := []
    syscall_events := []
    buffer_size_kb := 0
    clock := 0
    compact_sched := false
    symbolize_ksyms := false }

/-- A request for the whole sched group plus atrace categories. -/
def reqAtrace : FtraceConfig :=
  { ftrace_events := [("sched", "*")]
    atrace_apps := ["com.example.app"]
    atrace_categories := ["gfx"]
    syscall_events := []
    buffer_size_kb := 1024
    clock := 1
    compact_sched := true
    symbolize_ksyms := false }

/-- A request for the raw-syscall group with an explicit syscall list. -/
def reqSysList : FtraceConfig :=
  { ftrace_events := [(kRawSyscallsGroup, "sys_enter")]
    atrace_apps := []
    atrace_categories := []
    syscall_events := [10, 20]
    buffer_size_kb := 0
    clock := 0
    compact_sched := false
    symbolize_ksyms := false }

/-- A request for the raw-syscall group with no syscall list (all syscalls). -/
def reqSysAll : FtraceConfig :=
  { ftrace_events := [(kRawSyscallsGroup, "sys_exit")]
    atrace_apps := []
    atrace_categories := []
    syscall_events := []
    buffer_size_kb := 0
    clock := 0
    compact_sched := false
    symbolize_ksyms := false }

/-! Claim theorems. -/

/-- C5: ComputeCpuBufferSizeInPages is a pure, deterministic function: input
0 yields the documented default page count, inputs below the one-page
minimum clamp up to one page, inputs above the documented maximum clamp
down to the maximum page count, and equal inputs yield equal outputs. -/
theorem computeCpuBufferSize_spec :
    ComputeCpuBufferSizeInPages 0 = kDefaultPerCpuBufferSizeKb / kPageSizeKb ∧
    (∀ kb, 0 < kb → kb < kPageSizeKb → ComputeCpuBufferSizeInPages kb = 1) ∧
    (∀ kb, kMaxPerCpuBufferSizeKb < kb →
      ComputeCpuBufferSizeInPages kb = kMaxPerCpuBufferSizeKb / kPageSizeKb) ∧
    (∀ a b, a = b → ComputeCpuBufferSizeInPages a = ComputeCpuBufferSizeInPages b) := by
  refine ⟨rfl, ?_, ?_, ?_⟩
  · intro kb h1 h2
    have hne : kb ≠ 0 := h1.ne'
    unfold kPageSizeKb at h2
    unfold ComputeCpuBufferSizeInPages kPageSizeKb kMaxPerCpuBufferSizeKb
    simp only [if_neg hne]
    have hmin : min kb 65536 = kb := min_eq_left (by omega)
    rw [hmin, Nat.div_eq_of_lt h2]
    omega
  · intro kb hgt
    unfold kMaxPerCpuBufferSizeKb at hgt
    unfold ComputeCpuBufferSizeInPages kPageSizeKb kMaxPerCpuBufferSizeKb kDefaultPerCpuBufferSizeKb
    have hne : kb ≠ 0 := by omega
    simp only [if_neg hne]
    rw [min_eq_right (le_of_lt hgt)]
    omega
  · intro a b h
    rw [h]

/-- C5 witness: the clamping and default behavior of the buffer-size policy
evaluated at concrete inputs 2 KB, 100000 KB and 0 KB. -/
theorem computeCpuBufferSize_spec_witness :
    ComputeCpuBufferSizeInPages 2 = 1 ∧
    ComputeCpuBufferSizeInPages 100000 = 16384 ∧
    ComputeCpuBufferSizeInPages 0 = 512 :=
  ⟨computeCpuBufferSize_spec.2.1 2 (by decide) (by decide),
   (computeCpuBufferSize_spec.2.2.1 100000 (by decide)).trans (by decide),
   computeCpuBufferSize_spec.1.trans (by decide)⟩

/-- C10: on a freshly constructed muxer GetPerCpuBufferSizePages returns 0
(the header initializer), which is not the buffer-size policy's default,
and the getter reads only the in-memory snapshot: it is determined by
current_state alone, never consulting the shared resource. -/
theorem getPerCpuBufferSizePages_initial :
    (∀ table : Table, GetPerCpuBufferSizePages (initialMuxer table) = 0) ∧
    ComputeCpuBufferSizeInPages 0 ≠ 0 ∧
    (∀ m₁ m₂ : FtraceConfigMuxer, m₁.current_state = m₂.current_state →
      GetPerCpuBufferSizePages m₁ = GetPerCpuBufferSizePages m₂) := by
  refine ⟨fun _ => rfl, by decide, ?_⟩
  intro m₁ m₂ h
  unfold GetPerCpuBufferSizePages
  rw [h]

/-- C10 witness: two fresh muxers over different tables and with different
shared resources share a snapshot, hence agree on the getter, which is 0. -/
theorem getPerCpuBufferSizePages_initial_witness :
    GetPerCpuBufferSizePages (initialMuxer table0) = 0 ∧
    GetPerCpuBufferSizePages (initialMuxer []) = GetPerCpuBufferSizePages (initialMuxer table0) :=
  ⟨getPerCpuBufferSizePages_initial.1 table0,
   getPerCpuBufferSizePages_initial.2.2 (initialMuxer []) (initialMuxer table0) rfl⟩

/-- C7: when any of the failure conditions of SetupConfig holds (translation
table unavailable, symbol resolution requested but impossible, or
shared-resource writes rejected) the call returns the zero id and the muxer
is completely unchanged; in particular no registry entry is left behind. -/
theorem setupConfig_failure (m : FtraceConfigMuxer) (env : SetupEnv) (request : FtraceConfig)
    (h : env.table_ok = false ∨ (request.symbolize_ksyms = true ∧ env.ksyms_ok = false) ∨
         env.write_ok = false) :
    (SetupConfig m env request).1 = 0 ∧
    (SetupConfig m env request).2.ds_configs = m.ds_configs ∧
    (SetupConfig m env request).2 = m := by
  have hfail : setupChecksPass env request = false := by
    unfold setupChecksPass
    rcases h with h | ⟨h1, h2⟩ | h
    · simp [h]
    · simp [h1, h2]
    · simp [h]
  unfold SetupConfig
  rw [hfail]
  exact ⟨rfl, rfl, rfl⟩

/-- C7 witness: a setup attempt with an unavailable translation table on a
fresh muxer returns id 0 and leaves the registry empty. -/
theorem setupConfig_failure_witness :
    (SetupConfig (initialMuxer table0) { table_ok := false, ksyms_ok := true, write_ok := true }
      reqSched).1 = 0 ∧
    (SetupConfig (initialMuxer table0) { table_ok := false, ksyms_ok := true, write_ok := true }
      reqSched).2.ds_configs = (initialMuxer table0).ds_configs ∧
    (SetupConfig (initialMuxer table0) { table_ok := false, ksyms_ok := true, write_ok := true }
      reqSched).2 = initialMuxer table0 :=
  setupConfig_failure (initialMuxer table0) _ reqSched (Or.inl rfl)


/-- C3: the per-CPU buffer page count is decided exactly once, at a
SetupConfig that finds the registry empty; any SetupConfig on a non-empty
registry leaves it unchanged regardless of the request's buffer hint, and
once the registry is empty again a successful SetupConfig re-decides it
from the new request. -/
theorem bufferSize_decided_once (m : FtraceConfigMuxer) (env : SetupEnv) (request : FtraceConfig) :
    (m.ds_configs ≠ [] →
      (SetupConfig m env request).2.current_state.cpu_buffer_size_pages
        = m.current_state.cpu_buffer_size_pages) ∧
    (m.ds_configs = [] → setupChecksPass env request = true →
      (SetupConfig m env request).2.current_state.cpu_buffer_size_pages
        = ComputeCpuBufferSizeInPages request.buffer_size_kb) := by
  constructor
  · intro hne
    by_cases hc : setupChecksPass env request = true
    · simp [SetupConfig, hc, hne, apply_ite FtraceState.cpu_buffer_size_pages]
    · simp [SetupConfig, hc]
  · intro hemp hc
    simp [SetupConfig, hc, hemp, apply_ite FtraceState.cpu_buffer_size_pages]


/-- C4: a SetupConfig arriving while any session is active never touches
the atrace switch or its app/category lists, though the request is accepted
and its lists are remembered in the registered SessionConfig; a successful
SetupConfig with annotation categories while no session is active does
toggle the switch on. -/
theorem atrace_gating (m : FtraceConfigMuxer) (env : SetupEnv) (request : FtraceConfig) :
    (m.active_configs ≠ (∅ : Finset Nat) →
      (SetupConfig m env request).2.current_state.atrace_on = m.current_state.atrace_on ∧
      (SetupConfig m env request).2.current_state.atrace_apps = m.current_state.atrace_apps ∧
      (SetupConfig m env request).2.current_state.atrace_categories
        = m.current_state.atrace_categories) ∧
    (setupChecksPass env request = true →
      (GetDataSourceConfig (SetupConfig m env request).2 (SetupConfig m env request).1).map
          (fun c => (c.atrace_apps, c.atrace_categories))
        = some (request.atrace_apps, request.atrace_categories)) ∧
    (m.active_configs = (∅ : Finset Nat) → request.atrace_categories ≠ [] →
      setupChecksPass env request = true →
      (SetupConfig m env request).2.current_state.atrace_on = true) := by
  refine ⟨?_, ?_, ?_⟩
  · intro hne
    by_cases hc : setupChecksPass env request = true
    · simp [SetupConfig, hc, hne, apply_ite FtraceState.atrace_on,
        apply_ite FtraceState.atrace_apps, apply_ite FtraceState.atrace_categories]
    · simp [SetupConfig, hc]
  · intro hc
    simp [SetupConfig, GetDataSourceConfig, lookupCfg, hc]
  · intro hemp hcat hc
    have hreq : RequiresAtrace request = true := by
      simp [RequiresAtrace, hcat]
    simp [SetupConfig, hc, hemp, hreq, apply_ite FtraceState.atrace_on]


lemma lookupCfg_eraseCfg (id : Nat) (l : List (Nat × FtraceDataSourceConfig)) :
    lookupCfg id (eraseCfg id l) = none := by
  induction l with
  | nil => rfl
  | cons e es ih =>
    by_cases h : e.1 = id
    · simp [eraseCfg, h, ih]
    · simp [eraseCfg, lookupCfg, h, ih]

/-- C8: ActivateConfig is idempotent for an already-active id (true, no
change to memory or the shared resource); for a registered inactive id it
returns true, inserts the id into the active set and asserts the shared
tracing-enable switch exactly when the active set was previously empty;
for a zero or unregistered id it returns false and changes nothing. -/
theorem activateConfig_spec (m : FtraceConfigMuxer) (id : Nat) :
    (id ≠ 0 → (lookupCfg id m.ds_configs).isSome = true → id ∈ m.active_configs →
      ActivateConfig m id = (true, m)) ∧
    (id ≠ 0 → (lookupCfg id m.ds_configs).isSome = true → id ∉ m.active_configs →
      (ActivateConfig m id).1 = true ∧
      (ActivateConfig m id).2.active_configs = insert id m.active_configs ∧
      (m.active_configs = (∅ : Finset Nat) → (ActivateConfig m id).2.procfs.tracing_on = true) ∧
      (m.active_configs ≠ (∅ : Finset Nat) → (ActivateConfig m id).2.procfs = m.procfs) ∧
      (ActivateConfig m id).2.current_state = m.current_state ∧
      (ActivateConfig m id).2.ds_configs = m.ds_configs) ∧
    (id = 0 ∨ (lookupCfg id m.ds_configs).isNone = true → ActivateConfig m id = (false, m)) := by
  refine ⟨?_, ?_, ?_⟩
  · intro h0 hsome hin
    have hnone : (lookupCfg id m.ds_configs).isNone = false := by
      cases hh : lookupCfg id m.ds_configs <;> simp_all
    simp [ActivateConfig, h0, hnone, hin]
  · intro h0 hsome hnotin
    have hnone : (lookupCfg id m.ds_configs).isNone = false := by
      cases hh : lookupCfg id m.ds_configs <;> simp_all
    refine ⟨?_, ?_, ?_, ?_, ?_, ?_⟩ <;>
      by_cases hemp : m.active_configs = (∅ : Finset Nat) <;>
        simp [ActivateConfig, h0, hnone, hnotin, hemp]
  · intro h
    rcases h with h | h
    · simp [ActivateConfig, h]
    · by_cases h0 : id = 0
      · simp [ActivateConfig, h0]
      · simp [ActivateConfig, h0, h]

/-- C9: RemoveConfig returns false exactly when the id is zero or not
registered, and in that case mutates nothing (the whole muxer, hence the
registry, active set and shared-state snapshot, is unchanged); on success
it removes the id from both the active set and the registry. -/
theorem removeConfig_spec (m : FtraceConfigMuxer) (id : Nat) :
    (id = 0 ∨ (lookupCfg id m.ds_configs).isNone = true → RemoveConfig m id = (false, m)) ∧
    ((RemoveConfig m id).1 = false ↔ (id = 0 ∨ lookupCfg id m.ds_configs = none)) ∧
    (id ≠ 0 → (lookupCfg id m.ds_configs).isSome = true →
      (RemoveConfig m id).1 = true ∧
      lookupCfg id (RemoveConfig m id).2.ds_configs = none ∧
      id ∉ (RemoveConfig m id).2.active_configs) := by
  refine ⟨?_, ?_, ?_⟩
  · intro h
    rcases h with h | h
    · simp [RemoveConfig, h]
    · by_cases h0 : id = 0
      · simp [RemoveConfig, h0]
      · simp [RemoveConfig, h0, h]
  · by_cases h0 : id = 0
    · simp [RemoveConfig, h0]
    · cases hh : lookupCfg id m.ds_configs <;> simp [RemoveConfig, h0, hh]
  · intro h0 hsome
    have hnone : (lookupCfg id m.ds_configs).isNone = false := by
      cases hh : lookupCfg id m.ds_configs <;> simp_all
    refine ⟨?_, ?_, ?_⟩ <;>
      simp [RemoveConfig, h0, hnone, lookupCfg_eraseCfg, Finset.not_mem_erase]


/-! Helper lemmas shared by the remaining claims. -/

lemma setup_fail_eq (m : FtraceConfigMuxer) (env : SetupEnv) (request : FtraceConfig)
    (hc : setupChecksPass env request = false) : SetupConfig m env request = (0, m) := by
  simp [SetupConfig, hc]

lemma setup_success_fst (m : FtraceConfigMuxer) (env : SetupEnv) (request : FtraceConfig)
    (hc : setupChecksPass env request = true) : (SetupConfig m env request).1 = m.last_id + 1 := by
  simp [SetupConfig, hc]

lemma setup_success_last_id (m : FtraceConfigMuxer) (env : SetupEnv) (request : FtraceConfig)
    (hc : setupChecksPass env request = true) :
    (SetupConfig m env request).2.last_id = m.last_id + 1 := by
  simp [SetupConfig, hc]

lemma setup_table_eq (m : FtraceConfigMuxer) (env : SetupEnv) (request : FtraceConfig) :
    (SetupConfig m env request).2.table = m.table := by
  by_cases hc : setupChecksPass env request = true <;> simp [SetupConfig, hc]

lemma activate_preserves (m : FtraceConfigMuxer) (id : Nat) :
    (ActivateConfig m id).2.current_state = m.current_state ∧
    (ActivateConfig m id).2.ds_configs = m.ds_configs ∧
    (ActivateConfig m id).2.last_id = m.last_id := by
  unfold ActivateConfig
  split_ifs <;> simp

lemma remove_preserves (m : FtraceConfigMuxer) (id : Nat) :
    (RemoveConfig m id).2.last_id = m.last_id := by
  unfold RemoveConfig
  split_ifs <;> simp

/-- The shared-state union invariant of spec invariant 2. -/
def EventUnionInv (m : FtraceConfigMuxer) : Prop :=
  m.current_state.ftrace_events = unionEventFilters m.ds_configs

lemma eventUnionInv_runCall (m : FtraceConfigMuxer) (c : MuxerCall) (h : EventUnionInv m) :
    EventUnionInv (runCall m c) := by
  cases c with
  | setup env request =>
    by_cases hc : setupChecksPass env request = true
    · unfold EventUnionInv at *
      simp only [runCall]
      simp [SetupConfig, hc, unionEventFilters, apply_ite FtraceState.ftrace_events, h,
        Finset.union_comm]
    · unfold EventUnionInv at *
      simp only [runCall]
      simp [SetupConfig, hc, h]
  | activate id =>
    unfold EventUnionInv at *
    simp only [runCall]
    rw [(activate_preserves m id).1, (activate_preserves m id).2.1]
    exact h
  | remove id =>
    unfold EventUnionInv at *
    simp only [runCall]
    unfold RemoveConfig
    split_ifs <;> simp [h, apply_ite FtraceState.ftrace_events]

lemma eventUnionInv_runCalls (m : FtraceConfigMuxer) (calls : List MuxerCall)
    (h : EventUnionInv m) : EventUnionInv (runCalls m calls) := by
  induction calls generalizing m with
  | nil => exact h
  | cons c cs ih => exact ih _ (eventUnionInv_runCall m c h)

lemma eventFilterOf_subset_union (l : List (Nat × FtraceDataSourceConfig)) (id : Nat) :
    eventFilterOf l id ⊆ unionEventFilters l := by
  induction l with
  | nil => simp [eventFilterOf, lookupCfg, unionEventFilters]
  | cons e es ih =>
    unfold eventFilterOf lookupCfg unionEventFilters
    by_cases h : e.1 = id
    · simp only [h, if_pos rfl]
      exact Finset.subset_union_left
    · simp only [if_neg h]
      exact (ih).trans Finset.subset_union_right

/-- C1: at every point of every SetupConfig/ActivateConfig/RemoveConfig call
sequence the shared-state union event filter equals the bitwise union of
every registered session's resolved event filter; in particular every
registered session's filter stays contained in the union, so an event still
requested by another session stays enabled after a removal. -/
theorem eventFilterUnion_invariant (table : Table) (calls : List MuxerCall) :
    (runCalls (initialMuxer table) calls).current_state.ftrace_events
      = unionEventFilters (runCalls (initialMuxer table) calls).ds_configs ∧
    ∀ id : Nat, eventFilterOf (runCalls (initialMuxer table) calls).ds_configs id
      ⊆ (runCalls (initialMuxer table) calls).current_state.ftrace_events := by
  have h : EventUnionInv (runCalls (initialMuxer table) calls) :=
    eventUnionInv_runCalls (initialMuxer table) calls rfl
  refine ⟨h, ?_⟩
  intro id
  rw [h]
  exact eventFilterOf_subset_union _ id

/-- C1 witness: the invariant evaluated on the concrete sequence of the
spec's example (register A for all of sched, register B for sched_switch,
remove A): the union equals B's filter and B's event is still enabled. -/
theorem eventFilterUnion_invariant_witness :
    (runCalls (initialMuxer table0)
        [.setup envOk reqAtrace, .setup envOk reqSched, .remove 2]).current_state.ftrace_events
      = unionEventFilters (runCalls (initialMuxer table0)
        [.setup envOk reqAtrace, .setup envOk reqSched, .remove 2]).ds_configs ∧
    eventFilterOf (runCalls (initialMuxer table0)
        [.setup envOk reqAtrace, .setup envOk reqSched, .remove 2]).ds_configs 3
      ⊆ (runCalls (initialMuxer table0)
        [.setup envOk reqAtrace, .setup envOk reqSched, .remove 2]).current_state.ftrace_events :=
  ⟨(eventFilterUnion_invariant table0 [.setup envOk reqAtrace, .setup envOk reqSched, .remove 2]).1,
   (eventFilterUnion_invariant table0 [.setup envOk reqAtrace, .setup envOk reqSched, .remove 2]).2 3⟩

lemma setup_syscall_sentinel (m : FtraceConfigMuxer) (env : SetupEnv) (request : FtraceConfig)
    (hc : setupChecksPass env request = true)
    (hraw : FilterHasGroup m.table (resolveEvents m.table request.ftrace_events)
      kRawSyscallsGroup = true)
    (hempty : request.syscall_events = []) :
    kAllSyscallsId ∈ (SetupConfig m env request).2.current_state.syscall_filter := by
  simp [SetupConfig, hc, computeSyscallUnion, BuildSyscallFilter, hraw, hempty]

/-- C2: if a session with the raw-syscall group and an explicit syscall list
is registered and then a session with the raw-syscall group and no syscall
list (meaning all syscalls) is registered, the shared-state union syscall
filter matches every syscall id: the empty-filter-means-all sentinel
absorbs any explicit list under union. -/
theorem syscallSentinelAbsorbs (m : FtraceConfigMuxer) (env₁ env₂ : SetupEnv)
    (req₁ req₂ : FtraceConfig)
    (h1 : setupChecksPass env₁ req₁ = true)
    (h2 : setupChecksPass env₂ req₂ = true)
    (hraw₁ : FilterHasGroup m.table (resolveEvents m.table req₁.ftrace_events)
      kRawSyscallsGroup = true)
    (hlist₁ : req₁.syscall_events ≠ [])
    (hraw₂ : FilterHasGroup m.table (resolveEvents m.table req₂.ftrace_events)
      kRawSyscallsGroup = true)
    (hempty₂ : req₂.syscall_events = []) :
    ∀ s : Nat, syscallFilterMatches
      (SetupConfig (SetupConfig m env₁ req₁).2 env₂ req₂).2.current_state.syscall_filter s
      = true := by
  intro s
  have htab : (SetupConfig m env₁ req₁).2.table = m.table := setup_table_eq m env₁ req₁
  have hmem := setup_syscall_sentinel (SetupConfig m env₁ req₁).2 env₂ req₂ h2
    (by rw [htab]; exact hraw₂) hempty₂
  simp [syscallFilterMatches, hmem]

/-- C2 witness: on the concrete table, registering the explicit-list session
and then the all-syscalls session yields a union filter that matches the
unrelated syscall id 42. -/
theorem syscallSentinelAbsorbs_witness :
    syscallFilterMatches
      (SetupConfig (SetupConfig (initialMuxer table0) envOk reqSysList).2 envOk
        reqSysAll).2.current_state.syscall_filter 42 = true :=
  syscallSentinelAbsorbs (initialMuxer table0) envOk envOk reqSysList reqSysAll rfl rfl
    (by decide) (by decide) (by decide) rfl 42

lemma bool_eq_false_of_ne_true {b : Bool} (h : ¬(b = true)) : b = false := by
  cases b <;> simp_all

lemma setupIds_gt (calls : List MuxerCall) :
    ∀ (m : FtraceConfigMuxer) (i : Nat), i ∈ setupIds m calls → m.last_id < i := by
  induction calls with
  | nil =>
    intro m i hi
    simp [setupIds] at hi
  | cons c cs ih =>
    intro m i hi
    cases c with
    | setup env request =>
      by_cases hc : setupChecksPass env request = true
      · simp only [setupIds, hc, if_true, List.mem_cons] at hi
        rcases hi with rfl | hi
        · rw [setup_success_fst m env request hc]
          omega
        · have := ih _ i hi
          rw [setup_success_last_id m env request hc] at this
          omega
      · have hc' : setupChecksPass env request = false := bool_eq_false_of_ne_true hc
        simp only [setupIds, hc'] at hi
        rw [setup_fail_eq m env request hc'] at hi
        simp at hi
        exact ih _ i hi
    | activate id =>
      simp only [setupIds] at hi
      have := ih _ i hi
      simp only [runCall] at this
      rw [(activate_preserves m id).2.2] at this
      exact this
    | remove id =>
      simp only [setupIds] at hi
      have := ih _ i hi
      simp only [runCall] at this
      rw [remove_preserves m id] at this
      exact this

lemma setupIds_chain (calls : List MuxerCall) :
    ∀ m : FtraceConfigMuxer, List.Chain' (· < ·) (setupIds m calls) := by
  induction calls with
  | nil =>
    intro m
    simp [setupIds]
  | cons c cs ih =>
    intro m
    cases c with
    | setup env request =>
      by_cases hc : setupChecksPass env request = true
      · simp only [setupIds, hc, if_true]
        refine List.chain'_cons'.mpr ⟨?_, ih _⟩
        intro y hy
        have hmem : y ∈ setupIds (SetupConfig m env request).2 cs :=
          List.mem_of_mem_head? hy
        have := setupIds_gt cs _ y hmem
        rw [setup_success_last_id m env request hc] at this
        rw [setup_success_fst m env request hc]
        omega
      · have hc' : setupChecksPass env request = false := bool_eq_false_of_ne_true hc
        simp only [setupIds, hc']
        simp only [Bool.false_eq_true, if_false]
        exact ih _
    | activate id =>
      simp only [setupIds]
      exact ih _
    | remove id =>
      simp only [setupIds]
      exact ih _

/-- C6: over any call sequence on one muxer, the ids returned by the
successful SetupConfig calls form a strictly increasing sequence that never
contains zero, and SetupConfig returns zero exactly when the call fails. -/
theorem sessionIds_strictly_increasing (table : Table) (calls : List MuxerCall) :
    List.Chain' (· < ·) (setupIds (initialMuxer table) calls) ∧
    (∀ i ∈ setupIds (initialMuxer table) calls, i ≠ 0) ∧
    (∀ (m : FtraceConfigMuxer) (env : SetupEnv) (request : FtraceConfig),
      (SetupConfig m env request).1 = 0 ↔ setupChecksPass env request = false) := by
  refine ⟨setupIds_chain calls (initialMuxer table), ?_, ?_⟩
  · intro i hi
    have := setupIds_gt calls (initialMuxer table) i hi
    simp [initialMuxer] at this
    omega
  · intro m env request
    by_cases hc : setupChecksPass env request = true
    · rw [setup_success_fst m env request hc]
      simp [hc]
    · have hc' : setupChecksPass env request = false := bool_eq_false_of_ne_true hc
      rw [setup_fail_eq m env request hc']
      simp [hc']

/-- C6 witness: on a concrete sequence of two successful setups, a failed
setup and a removal, the returned ids are chained increasing, the id 3 that
the sequence returns is nonzero, and a concrete failing setup returns 0. -/
theorem sessionIds_strictly_increasing_witness :
    List.Chain' (· < ·) (setupIds (initialMuxer table0)
      [.setup envOk reqSched, .setup envOk reqSysList,
       .setup { table_ok := false, ksyms_ok := true, write_ok := true } reqSched,
       .remove 2]) ∧
    (3 ∈ setupIds (initialMuxer table0)
      [.setup envOk reqSched, .setup envOk reqSysList,
       .setup { table_ok := false, ksyms_ok := true, write_ok := true } reqSched,
       .remove 2] → 3 ≠ 0) ∧
    ((SetupConfig (initialMuxer table0)
      { table_ok := false, ksyms_ok := true, write_ok := true } reqSched).1 = 0 ↔
      setupChecksPass { table_ok := false, ksyms_ok := true, write_ok := true } reqSched
        = false) :=
  ⟨(sessionIds_strictly_increasing table0
      [.setup envOk reqSched, .setup envOk reqSysList,
       .setup { table_ok := false, ksyms_ok := true, write_ok := true } reqSched,
       .remove 2]).1,
   (sessionIds_strictly_increasing table0
      [.setup envOk reqSched, .setup envOk reqSysList,
       .setup { table_ok := false, ksyms_ok := true, write_ok := true } reqSched,
       .remove 2]).2.1 3,
   (sessionIds_strictly_increasing table0
      [.setup envOk reqSched, .setup envOk reqSysList,
       .setup { table_ok := false, ksyms_ok := true, write_ok := true } reqSched,
       .remove 2]).2.2 (initialMuxer table0)
      { table_ok := false, ksyms_ok := true, write_ok := true } reqSched⟩

/-- Fixture: a muxer with exactly one registered (not yet active) session,
the sched session with id 2. -/
def mSetup : FtraceConfigMuxer := (SetupConfig (initialMuxer table0) envOk reqSched).2

/-- Fixture: the same muxer after activating session 2. -/
def mActive : FtraceConfigMuxer := (ActivateConfig mSetup 2).2

/-- C3 witness: the first session (1024 KB hint) decides the page count;
a second SetupConfig on the now non-empty registry leaves it unchanged. -/
theorem bufferSize_decided_once_witness :
    (SetupConfig (SetupConfig (initialMuxer table0) envOk reqAtrace).2 envOk
        reqSched).2.current_state.cpu_buffer_size_pages
      = (SetupConfig (initialMuxer table0) envOk
          reqAtrace).2.current_state.cpu_buffer_size_pages ∧
    (SetupConfig (initialMuxer table0) envOk reqAtrace).2.current_state.cpu_buffer_size_pages
      = ComputeCpuBufferSizeInPages reqAtrace.buffer_size_kb :=
  ⟨(bufferSize_decided_once (SetupConfig (initialMuxer table0) envOk reqAtrace).2 envOk
      reqSched).1 (by decide),
   (bufferSize_decided_once (initialMuxer table0) envOk reqAtrace).2 rfl rfl⟩

/-- C4 witness: with session 2 active, a setup naming atrace apps and
categories leaves the annotation state untouched yet remembers the lists in
the new SessionConfig; on a fresh muxer the same request toggles atrace on. -/
theorem atrace_gating_witness :
    ((SetupConfig mActive envOk reqAtrace).2.current_state.atrace_on
        = mActive.current_state.atrace_on ∧
      (SetupConfig mActive envOk reqAtrace).2.current_state.atrace_apps
        = mActive.current_state.atrace_apps ∧
      (SetupConfig mActive envOk reqAtrace).2.current_state.atrace_categories
        = mActive.current_state.atrace_categories) ∧
    (GetDataSourceConfig (SetupConfig mActive envOk reqAtrace).2
        (SetupConfig mActive envOk reqAtrace).1).map
        (fun c => (c.atrace_apps, c.atrace_categories))
      = some (reqAtrace.atrace_apps, reqAtrace.atrace_categories) ∧
    (SetupConfig (initialMuxer table0) envOk reqAtrace).2.current_state.atrace_on = true :=
  ⟨(atrace_gating mActive envOk reqAtrace).1 (by decide),
   (atrace_gating mActive envOk reqAtrace).2.1 rfl,
   (atrace_gating (initialMuxer table0) envOk reqAtrace).2.2 rfl (by decide) rfl⟩

/-- C8 witness: re-activating the active session 2 changes nothing; on the
inactive registered session 2 activation succeeds and asserts tracing_on
(the active set was empty); activating id 0 fails without mutation. -/
theorem activateConfig_spec_witness :
    ActivateConfig mActive 2 = (true, mActive) ∧
    (ActivateConfig mSetup 2).1 = true ∧
    (ActivateConfig mSetup 2).2.procfs.tracing_on = true ∧
    ActivateConfig mSetup 0 = (false, mSetup) :=
  ⟨(activateConfig_spec mActive 2).1 (by decide) (by decide) (by decide),
   ((activateConfig_spec mSetup 2).2.1 (by decide) (by decide) (by decide)).1,
   ((activateConfig_spec mSetup 2).2.1 (by decide) (by decide) (by decide)).2.2.1 (by decide),
   (activateConfig_spec mSetup 0).2.2 (Or.inl rfl)⟩

/-- C9 witness: removing id 0 or the unknown id 99 fails and leaves the
muxer untouched; removing the registered id 2 succeeds and erases it from
both the registry and the active set. -/
theorem removeConfig_spec_witness :
    RemoveConfig mSetup 0 = (false, mSetup) ∧
    RemoveConfig mSetup 99 = (false, mSetup) ∧
    (RemoveConfig mSetup 2).1 = true ∧
    lookupCfg 2 (RemoveConfig mSetup 2).2.ds_configs = none ∧
    2 ∉ (RemoveConfig mSetup 2).2.active_configs :=
  ⟨(removeConfig_spec mSetup 0).1 (Or.inl rfl),
   (removeConfig_spec mSetup 99).1 (Or.inr (by decide)),
   ((removeConfig_spec mSetup 2).2.2 (by decide) (by decide)).1,
   ((removeConfig_spec mSetup 2).2.2 (by decide) (by decide)).2.1,
   ((removeConfig_spec mSetup 2).2.2 (by decide) (by decide)).2.2⟩

end FtraceMuxer
